import Mathlib

/-!
Verification of the generation-ownership gossip core of the polar broker.

The definitions below are a shallow embedding of the Go source:
  - internal/types (Generation, GenStatus, TopicDataId, Token),
  - the gossiper (RegisterGenListener, WaitForPeersUp, requestPost,
    GetGenerations, SetGenerationAsProposed, SetAsCommitted),
  - the interbroker HTTP server handlers (postGenHandler, getGenHandler),
  - the consumer data-forwarding marshaller (marshalResponse,
    consumerResponseItem.Marshal).

Machine integers are modelled as Nat/Int with explicit reductions mod 2^w
where the Go code truncates; fallible operations return Except/Option;
Go panics are modelled as explicit outcome constructors.
-/

/-- Token is a signed integer position on the hash ring (Go: int64).
The signed value is reduced mod 2^64 only where it is written to the wire. -/
abbrev Token := Int

/-- The Go uuid.UUID is carried over the control RPCs as its string form;
its identity is all the claims need, so it is modelled as a string. -/
abbrev UUID := String

/-- The zero value of uuid.UUID, rendered as JSON. -/
def zeroUUID : UUID := "00000000-0000-0000-0000-000000000000"

/-- Generation record, from internal/types (fields and JSON tags
start, end, version, timestamp, leader, followers, tx, txLeader,
status, toDelete). GenStatus is a Go int, modelled as Int. -/
structure Generation where
  Start     : Token
  End       : Token
  Version   : Int
  Timestamp : Int
  Leader    : Int
  Followers : List Int
  Tx        : UUID
  TxLeader  : Int
  Status    : Int
  ToDelete  : Bool
deriving DecidableEq, Repr

/-- The zero value of the Generation struct (what Go json leaves in place
for an absent or null slot). -/
def zeroGeneration : Generation :=
  { Start := 0, End := 0, Version := 0, Timestamp := 0, Leader := 0,
    Followers := [], Tx := zeroUUID, TxLeader := 0, Status := 0,
    ToDelete := false }

/-- GenStatus is an integer enum in the source
(Cancelled, Proposed, Accepted, Committed = 0, 1, 2, 3). -/
abbrev GenStatus := Int

/-- The name table genStatusNames from internal/types. -/
def genStatusNames : List String := ["Cancelled", "Proposed", "Accepted", "Committed"]

/-- Embeds the Go method GenStatus.String: an unchecked array index
genStatusNames[s]. An index outside 0..3 panics in Go; the panic is
modelled as none. -/
def genStatusString (s : GenStatus) : Option String :=
  if s < 0 then none else genStatusNames.get? s.toNat

/-- TopicDataId from internal/types: the record as declared carries the
stream name, the token and the generation id (Go uint16,
modelled as Nat reduced mod 2^16 at the wire). -/
structure TopicDataId where
  Name  : String
  Token : Token
  GenId : Nat
deriving DecidableEq, Repr

/-- Outcome of gossiper.RegisterGenListener: either the listener field is
set, or the call panics and the field keeps its previous value. -/
inductive RegResult (L : Type) where
  | ok (listener : Option L)
  | panicked (msg : String) (listener : Option L)
deriving DecidableEq, Repr

/-- Embeds gossiper.RegisterGenListener: panics when a listener is
already registered, otherwise stores the new listener. -/
def RegisterGenListener {L : Type} (current : Option L) (l : L) : RegResult L :=
  match current with
  | some prev => .panicked "Listener registered multiple times" (some prev)
  | none => .ok (some l)

/-- Theorem C3: RegisterGenListener succeeds for the first listener and
panics on a second registration, leaving the first listener bound. -/
theorem C3_register_gen_listener {L : Type} (l first : L) :
    RegisterGenListener (none : Option L) l = .ok (some l) ∧
    RegisterGenListener (some first) l =
      .panicked "Listener registered multiple times" (some first) := by
  exact ⟨rfl, rfl⟩

/-- Theorem C10: genStatusString maps 0, 1, 2, 3 to Cancelled, Proposed,
Accepted, Committed, and any status outside 0..3 is an out-of-bounds
lookup (modelled none, a panic in Go). -/
theorem C10_gen_status_string :
    genStatusString 0 = some "Cancelled" ∧
    genStatusString 1 = some "Proposed" ∧
    genStatusString 2 = some "Accepted" ∧
    genStatusString 3 = some "Committed" ∧
    ∀ s : Int, s < 0 ∨ 3 < s → genStatusString s = none := by
  refine ⟨rfl, rfl, rfl, rfl, ?_⟩
  intro s hs
  rcases hs with h | h
  · simp [genStatusString, h]
  · have hnn : ¬ s < 0 := by omega
    have h4 : 4 ≤ s.toNat := by omega
    simp only [genStatusString, if_neg hnn]
    apply List.get?_eq_none.mpr
    simpa [genStatusNames] using h4

/-- Witness for C10 at the concrete out-of-range statuses 4 and -1. -/
theorem C10_gen_status_string_witness :
    genStatusString 4 = none ∧ genStatusString (-1) = none :=
  ⟨C10_gen_status_string.2.2.2.2 4 (Or.inr (by decide)),
   C10_gen_status_string.2.2.2.2 (-1) (Or.inl (by decide))⟩

/-- Theorem C8: the TopicDataId record as declared in internal/types is in
bijection with the triple of its three components (stream name, token,
generation id); it carries no independent fourth range-sub-index
component, contradicting the claim of exactly four components. The
consuming read path in the same tree sets and reads a RangeIndex field,
so the declared record is the stale one. -/
theorem C8_topic_data_id_three_components :
    Function.Bijective (fun t : TopicDataId => (t.Name, t.Token, t.GenId)) := by
  constructor
  · intro a b h
    cases a
    cases b
    simpa using h
  · intro p
    exact ⟨⟨p.1, p.2.1, p.2.2⟩, rfl⟩

/-!
Outbound gossip calls.

requestPost (source lines 181-199 of the gossiper) returns a nil
response on every error path: no open connection, unknown broker
ordinal, a failed HTTP exchange (the Go http.Client returns a nil
response whenever it returns an error), and also an HTTP status other
than 200 OK (the source explicitly returns nil together with an
HttpError). SetGenerationAsProposed and SetAsCommitted both run
`defer r.Body.Close()` before inspecting the error, so a nil response
is dereferenced when the function returns.
-/

/-- Outcome of the underlying HTTP POST attempt against a peer. -/
inductive NetOutcome where
  | noConnection
  | noBroker
  | transportError (msg : String)
  | response (status : Nat) (statusLine : String)
deriving DecidableEq, Repr

/-- Go error values produced on the outbound paths: a plain formatted
error or a structured HttpError carrying the response status. -/
inductive GoError where
  | errorf (msg : String)
  | httpError (code : Nat) (statusLine : String)
deriving DecidableEq, Repr

/-- An http.Response; only its presence matters (calling Body.Close on a
nil response panics). -/
structure HttpResponse where
  status : Nat
deriving DecidableEq, Repr

/-- Embeds gossiper.requestPost: nil response together with an error on
the no-connection, unknown-broker, transport-failure and non-200 paths;
the response only on a 200 OK exchange. -/
def requestPost (net : NetOutcome) : Option HttpResponse × Option GoError :=
  match net with
  | .noConnection => (none, some (.errorf "No connection to broker"))
  | .noBroker => (none, some (.errorf "No broker obtained"))
  | .transportError msg => (none, some (.errorf msg))
  | .response code line =>
    if code = 200 then (some ⟨code⟩, none) else (none, some (.httpError code line))

/-- Result of an outbound call as observed by the caller: a returned
error value, or a runtime panic that unwinds the process. -/
inductive CallOutcome where
  | returns (err : Option GoError)
  | panics (msg : String)
deriving DecidableEq, Repr

/-- The Go runtime fault raised by dereferencing a nil pointer. -/
def nilDerefMsg : String := "runtime error: invalid memory address or nil pointer dereference"

/-- The deferred `r.Body.Close()`: panics when the response is nil,
otherwise the function returns normally with its value. -/
def closeBodyDeferred (r : Option HttpResponse) (k : CallOutcome) : CallOutcome :=
  match r with
  | some _ => k
  | none => .panics nilDerefMsg

/-- Embeds gossiper.SetGenerationAsProposed after the proposal message is
marshalled (json.Marshal cannot fail for these field types): it posts
the body and runs the deferred close of the response body before
returning the error. -/
def SetGenerationAsProposed (net : NetOutcome) : CallOutcome :=
  match requestPost net with
  | (r, err) => closeBodyDeferred r (.returns err)

/-- Embeds gossiper.SetAsCommitted, which marshals the transaction id and
follows the same post-then-deferred-close shape. -/
def SetAsCommitted (net : NetOutcome) : CallOutcome :=
  match requestPost net with
  | (r, err) => closeBodyDeferred r (.returns err)

/-- Theorem C2: on every failed outbound exchange (no connection open to
the peer, peer unreachable, or the HTTP exchange failing with a non-200
status) both SetGenerationAsProposed and SetAsCommitted panic on the
deferred close of a nil response body instead of returning a transport
error, because requestPost pairs every error with a nil response. -/
theorem C2_outbound_error_panics :
    SetGenerationAsProposed .noConnection = .panics nilDerefMsg ∧
    SetGenerationAsProposed (.transportError "connection refused") = .panics nilDerefMsg ∧
    SetGenerationAsProposed (.response 409 "409 Conflict") = .panics nilDerefMsg ∧
    SetAsCommitted .noConnection = .panics nilDerefMsg ∧
    SetAsCommitted (.transportError "connection refused") = .panics nilDerefMsg ∧
    SetAsCommitted (.response 409 "409 Conflict") = .panics nilDerefMsg :=
  ⟨rfl, rfl, rfl, rfl, rfl, rfl⟩

/-!
WaitForPeersUp.

The poll loop is abstracted over poll indices: poll n happens after n
sleeps of waitForUpDelay = 200ms, so the elapsed wall-clock seconds
observed at poll n is n * 200 / 1000. The liveness oracle clientUp n p
stands for `getClientInfo(p) != nil && client.isHostUp()` at poll n. The
unbounded source loop is embedded with a fuel of 3006 polls; the fatal
branch fires at poll 3005 at the latest (elapsed 601 > 600 seconds), and
the fuel is proved to never run out.
-/

/-- waitForUpDelay from the source, in milliseconds. -/
def waitForUpDelayMs : Nat := 200

/-- waitForUpMaxWait from the source, in seconds (10 minutes). -/
def waitForUpMaxWaitSec : Nat := 600

/-- Elapsed whole seconds observed at poll n. -/
def elapsedSecondsAt (n : Nat) : Nat := n * waitForUpDelayMs / 1000

/-- Result of the startup barrier: early return because no peers are
configured (dev mode), a normal return because a peer is up, a fatal
process exit, or exhausted fuel (proved unreachable). -/
inductive WaitOutcome where
  | devModeReturn
  | ok
  | fatal
  | fuelOut
deriving DecidableEq, Repr

/-- One poll loop of WaitForPeersUp: check every peer, return when one is
up, exit fatally once the elapsed seconds exceed the ceiling, otherwise
sleep and poll again. -/
def waitLoop (peers : List Nat) (clientUp : Nat → Nat → Bool) : Nat → Nat → WaitOutcome
  | 0, _ => .fuelOut
  | fuel + 1, n =>
    if peers.any (fun p => clientUp n p) then .ok
    else if waitForUpMaxWaitSec < elapsedSecondsAt n then .fatal
    else waitLoop peers clientUp fuel (n + 1)

/-- Fuel covering every poll up to the fatal threshold. -/
def waitMaxPolls : Nat := 3006

/-- Embeds gossiper.WaitForPeersUp: immediate warn-and-return when the
discoverer reports no peers, otherwise the poll loop from poll 0. -/
def WaitForPeersUp (peers : List Nat) (clientUp : Nat → Nat → Bool) : WaitOutcome :=
  if peers.length = 0 then .devModeReturn
  else waitLoop peers clientUp waitMaxPolls 0

theorem waitLoop_succ_eq (peers : List Nat) (clientUp : Nat → Nat → Bool)
    (fuel n : Nat) :
    waitLoop peers clientUp (fuel + 1) n =
      if peers.any (fun p => clientUp n p) then .ok
      else if waitForUpMaxWaitSec < elapsedSecondsAt n then .fatal
      else waitLoop peers clientUp fuel (n + 1) := rfl

theorem waitLoop_ok_exists (peers : List Nat) (clientUp : Nat → Nat → Bool) :
    ∀ fuel n, waitLoop peers clientUp fuel n = .ok →
      ∃ m p, p ∈ peers ∧ clientUp m p = true := by
  intro fuel
  induction fuel with
  | zero => intro n h; simp [waitLoop] at h
  | succ k ih =>
    intro n h
    by_cases hup : peers.any (fun p => clientUp n p)
    · rcases List.any_eq_true.mp hup with ⟨p, hp, hcl⟩
      exact ⟨n, p, hp, hcl⟩
    · simp only [waitLoop, if_neg hup] at h
      by_cases hel : waitForUpMaxWaitSec < elapsedSecondsAt n
      · simp [if_pos hel] at h
      · exact ih (n + 1) (by simpa [if_neg hel] using h)

theorem waitLoop_never_up_fatal (peers : List Nat) (clientUp : Nat → Nat → Bool)
    (hnever : ∀ n p, clientUp n p = false) :
    ∀ fuel n, 3006 ≤ n + fuel → 1 ≤ fuel →
      waitLoop peers clientUp fuel n = .fatal := by
  intro fuel
  induction fuel with
  | zero => intro n _ h1; omega
  | succ k ih =>
    intro n hcov _
    have hup : peers.any (fun p => clientUp n p) = false := by
      simp [hnever]
    cases k with
    | zero =>
      have hel : waitForUpMaxWaitSec < elapsedSecondsAt n := by
        simp only [elapsedSecondsAt, waitForUpMaxWaitSec, waitForUpDelayMs]
        omega
      rw [waitLoop_succ_eq, if_neg (by simp [hup]), if_pos hel]
    | succ m =>
      by_cases hel : waitForUpMaxWaitSec < elapsedSecondsAt n
      · rw [waitLoop_succ_eq, if_neg (by simp [hup]), if_pos hel]
      · rw [waitLoop_succ_eq, if_neg (by simp [hup]), if_neg hel]
        exact ih (n + 1) (by omega) (by omega)

theorem waitLoop_ne_dev_mode (peers : List Nat) (clientUp : Nat → Nat → Bool) :
    ∀ fuel n, waitLoop peers clientUp fuel n ≠ .devModeReturn := by
  intro fuel
  induction fuel with
  | zero => intro n; simp [waitLoop]
  | succ k ih =>
    intro n
    by_cases hup : peers.any (fun p => clientUp n p)
    · simp [waitLoop, hup]
    · by_cases hel : waitForUpMaxWaitSec < elapsedSecondsAt n
      · simp [waitLoop, hup, hel]
      · simpa [waitLoop, hup, hel] using ih (n + 1)

theorem waitLoop_no_fuel_out (peers : List Nat) (clientUp : Nat → Nat → Bool) :
    ∀ fuel n, 3006 ≤ n + fuel → 1 ≤ fuel →
      waitLoop peers clientUp fuel n ≠ .fuelOut := by
  intro fuel
  induction fuel with
  | zero => intro n _ h1; omega
  | succ k ih =>
    intro n hcov _
    cases k with
    | zero =>
      have hel : waitForUpMaxWaitSec < elapsedSecondsAt n := by
        simp only [elapsedSecondsAt, waitForUpMaxWaitSec, waitForUpDelayMs]
        omega
      by_cases hup : peers.any (fun p => clientUp n p)
      · simp [waitLoop, hup]
      · simp [waitLoop, hup, hel]
    | succ m =>
      by_cases hup : peers.any (fun p => clientUp n p)
      · simp [waitLoop, hup]
      · by_cases hel : waitForUpMaxWaitSec < elapsedSecondsAt n
        · simp [waitLoop, hup, hel]
        · rw [waitLoop_succ_eq, if_neg hup, if_neg hel]
          exact ih (n + 1) (by omega) (by omega)

/-- Theorem C5: with at least one configured peer, the startup barrier
returns normally only when the liveness oracle reported some peer up at
some poll, exits fatally when no peer ever reports up (fatal at poll
3005, elapsed 601 seconds, just past the 600-second ceiling), never
exhausts its fuel, and never takes the peerless early return. The poll
spacing is the fixed waitForUpDelayMs = 200ms embedded in
elapsedSecondsAt. -/
theorem C5_wait_for_peers_up (peers : List Nat) (clientUp : Nat → Nat → Bool)
    (hne : peers ≠ []) :
    (WaitForPeersUp peers clientUp = .ok → ∃ n p, p ∈ peers ∧ clientUp n p = true) ∧
    ((∀ n p, clientUp n p = false) → WaitForPeersUp peers clientUp = .fatal) ∧
    WaitForPeersUp peers clientUp ≠ .fuelOut ∧
    WaitForPeersUp peers clientUp ≠ .devModeReturn := by
  have hlen : ¬ peers.length = 0 := by
    simpa [List.length_eq_zero] using hne
  refine ⟨?_, ?_, ?_, ?_⟩
  · intro h
    exact waitLoop_ok_exists peers clientUp waitMaxPolls 0
      (by simpa [WaitForPeersUp, hlen] using h)
  · intro hnever
    simp only [WaitForPeersUp, if_neg hlen]
    exact waitLoop_never_up_fatal peers clientUp hnever waitMaxPolls 0
      (by simp [waitMaxPolls]) (by simp [waitMaxPolls])
  · simp only [WaitForPeersUp, if_neg hlen]
    exact waitLoop_no_fuel_out peers clientUp waitMaxPolls 0
      (by simp [waitMaxPolls]) (by simp [waitMaxPolls])
  · simp only [WaitForPeersUp, if_neg hlen]
    exact waitLoop_ne_dev_mode peers clientUp waitMaxPolls 0

/-- Witness for C5 on one peer that never comes up: the barrier exits
fatally, and on one peer that is up at poll 1 it returns normally. -/
theorem C5_wait_for_peers_up_witness :
    WaitForPeersUp [1] (fun _ _ => false) = .fatal ∧
    (∃ n p, p ∈ [1] ∧ (fun (n : Nat) (_ : Nat) => n == 1) n p = true) :=
  ⟨(C5_wait_for_peers_up [1] (fun _ _ => false) (by decide)).2.1 (fun _ _ => rfl),
   (C5_wait_for_peers_up [1] (fun n _ => n == 1) (by decide)).1 (by decide)⟩

/-- Theorem C9: with an empty peer list the barrier returns immediately
through the dev-mode branch, for every liveness oracle: no polling, no
fatal exit. -/
theorem C9_wait_for_peers_up_no_peers (clientUp : Nat → Nat → Bool) :
    WaitForPeersUp [] clientUp = .devModeReturn := rfl

/-!
JSON bodies of the generation control RPCs.

The JSON value space is embedded as a small inductive; encoding and
decoding follow the Go encoding/json semantics for the concrete Go types
involved: a JSON null decoded into a struct or slice is a no-op that
leaves the zero value, absent object keys leave field zero values,
mismatched kinds are errors, and decoding a JSON object into a slice is
an error. Go key matching is case-insensitive with last-duplicate-wins;
the bodies below use the exact lowercase field tags and no duplicates,
where the two coincide with exact first-match lookup.
-/

inductive Json where
  | null
  | bool (b : Bool)
  | num (n : Int)
  | str (s : String)
  | arr (items : List Json)
  | obj (fields : List (String × Json))

/-- Decodes an integer-valued field of a Generation object. -/
def getIntField (fields : List (String × Json)) (key : String) : Except String Int :=
  match fields.lookup key with
  | none => .ok 0
  | some .null => .ok 0
  | some (.num n) => .ok n
  | some _ => .error ("json: cannot unmarshal value into field " ++ key)

/-- Decodes a boolean-valued field of a Generation object. -/
def getBoolField (fields : List (String × Json)) (key : String) : Except String Bool :=
  match fields.lookup key with
  | none => .ok false
  | some .null => .ok false
  | some (.bool b) => .ok b
  | some _ => .error ("json: cannot unmarshal value into field " ++ key)

/-- Decodes the uuid-valued tx field; uuid.UUID unmarshals from its
string form (format validation elided, the identity of the string is
all the protocol compares). -/
def getUUIDField (fields : List (String × Json)) (key : String) : Except String UUID :=
  match fields.lookup key with
  | none => .ok zeroUUID
  | some .null => .ok zeroUUID
  | some (.str s) => .ok s
  | some _ => .error ("json: cannot unmarshal value into field " ++ key)

/-- Decodes the followers field, a slice of broker ordinals. -/
def getIntListField (fields : List (String × Json)) (key : String) :
    Except String (List Int) :=
  match fields.lookup key with
  | none => .ok []
  | some .null => .ok []
  | some (.arr xs) =>
    xs.mapM (fun j =>
      match j with
      | .num n => Except.ok n
      | _ => Except.error ("json: cannot unmarshal element of field " ++ key))
  | some _ => .error ("json: cannot unmarshal value into field " ++ key)

/-- Decodes a Generation from the fields of a JSON object, using the
struct tags declared in internal/types. -/
def decodeGeneration (fields : List (String × Json)) : Except String Generation := do
  let start ← getIntField fields "start"
  let endTok ← getIntField fields "end"
  let version ← getIntField fields "version"
  let timestamp ← getIntField fields "timestamp"
  let leader ← getIntField fields "leader"
  let followers ← getIntListField fields "followers"
  let tx ← getUUIDField fields "tx"
  let txLeader ← getIntField fields "txLeader"
  let status ← getIntField fields "status"
  let toDelete ← getBoolField fields "toDelete"
  return { Start := start, End := endTok, Version := version,
           Timestamp := timestamp, Leader := leader, Followers := followers,
           Tx := tx, TxLeader := txLeader, Status := status,
           ToDelete := toDelete }

/-- Decodes one element of a []*types.Generation: null is a nil pointer,
an object is a Generation, anything else is an error. -/
def decodeGenPtr (j : Json) : Except String (Option Generation) :=
  match j with
  | .null => .ok none
  | .obj fields => (decodeGeneration fields).map some
  | _ => .error "json: cannot unmarshal value into Go value of type *types.Generation"

/-- Decodes the body of POST /generations/:token the way postGenHandler
does, into []*types.Generation: only a JSON array (or null at top level,
leaving a nil slice) is accepted; a JSON object is an error. -/
def decodeGenPtrSlice (j : Json) : Except String (List (Option Generation)) :=
  match j with
  | .null => .ok []
  | .arr xs => xs.mapM decodeGenPtr
  | _ => .error "json: cannot unmarshal value into Go value of type []*types.Generation"

/-- Decodes one element of a []types.Generation (value slice, used by the
client side of GetGenerations): null leaves the zero value. -/
def decodeGenValue (j : Json) : Except String Generation :=
  match j with
  | .null => .ok zeroGeneration
  | .obj fields => decodeGeneration fields
  | _ => .error "json: cannot unmarshal value into Go value of type types.Generation"

/-- Decodes a GET /generations/:token body into []types.Generation. -/
def decodeGenValueSlice (j : Json) : Except String (List Generation) :=
  match j with
  | .null => .ok []
  | .arr xs => xs.mapM decodeGenValue
  | _ => .error "json: cannot unmarshal value into Go value of type []types.Generation"

/-- Encodes a Generation with the struct tags declared in internal/types,
as json.Marshal does. -/
def encodeGeneration (g : Generation) : Json :=
  .obj [("start", .num g.Start), ("end", .num g.End),
        ("version", .num g.Version), ("timestamp", .num g.Timestamp),
        ("leader", .num g.Leader),
        ("followers", .arr (g.Followers.map .num)),
        ("tx", .str g.Tx), ("txLeader", .num g.TxLeader),
        ("status", .num g.Status), ("toDelete", .bool g.ToDelete)]

/-- Encodes a *uuid.UUID: nil marshals to null. -/
def encodeOptUUID : Option UUID → Json
  | none => .null
  | some u => .str u

/-- Modelled from the spec: the GenerationProposeMessage struct that
SetGenerationAsProposed marshals is declared outside src (only its use
site is visible); the spec gives the body shape
`{generation: Generation, expectedTx: TransactionId|null}`. -/
def proposeRequestBody (g : Generation) (expectedTx : Option UUID) : Json :=
  .obj [("generation", encodeGeneration g), ("expectedTx", encodeOptUUID expectedTx)]

/-- Result of postGenHandler as seen by the HTTP layer: an error response,
a panic, or a completed dispatch to the registered generation listener. -/
inductive HandlerOutcome where
  | clientError (status : Nat) (msg : String)
  | panicked (msg : String)
  | listenerInvoked (first : Option Generation) (second : Generation)
deriving DecidableEq, Repr

/-- Embeds gossiper.postGenHandler: parse the token, decode the body into
[]*Generation, reject with NewHttpError(400) unless exactly two slots
arrive with the second non-nil, panic when no listener is registered,
otherwise hand both slots to the listener. Plain token-parse and
body-decode errors are mapped to a client-error response by the HTTP
wrapper (ToPostHandle, outside src) — modelled from the spec: protocol
violations are rejected with a client-error response. -/
def postGenHandler (tokenValid : Bool) (body : Json) (listenerRegistered : Bool) :
    HandlerOutcome :=
  if tokenValid then
    match decodeGenPtrSlice body with
    | .error e => .clientError 400 e
    | .ok gens =>
      match gens with
      | [g0, some g1] =>
        if listenerRegistered then .listenerInvoked g0 g1
        else .panicked "Generation listener was not registered"
      | _ => .clientError 400 "Generations were not provided"
  else .clientError 400 "invalid token parameter"

/-- A request body is well formed for postGenHandler exactly when it
decodes to two generation slots with the second one non-nil. -/
def isWellFormedGenBody (j : Json) : Bool :=
  match decodeGenPtrSlice j with
  | .ok [_, some _] => true
  | _ => false

/-- Theorem C7: every POST body that does not decode to exactly two
generation slots with a non-null second slot is answered with a 400
client error and the registered listener is never invoked. -/
theorem C7_malformed_post_rejected (body : Json) (reg : Bool)
    (h : isWellFormedGenBody body = false) :
    (∃ m, postGenHandler true body reg = .clientError 400 m) ∧
    ∀ g0 g1, postGenHandler true body reg ≠ .listenerInvoked g0 g1 := by
  have hmain : ∃ m, postGenHandler true body reg = .clientError 400 m := by
    cases hdec : decodeGenPtrSlice body with
    | error e => exact ⟨e, by simp [postGenHandler, hdec]⟩
    | ok gens =>
      rcases gens with _ | ⟨g0, gens⟩
      · exact ⟨"Generations were not provided", by simp [postGenHandler, hdec]⟩
      rcases gens with _ | ⟨g1, gens⟩
      · exact ⟨"Generations were not provided", by simp [postGenHandler, hdec]⟩
      rcases gens with _ | ⟨g2, gens⟩
      · rcases g1 with _ | g1
        · exact ⟨"Generations were not provided", by simp [postGenHandler, hdec]⟩
        · exfalso
          rw [isWellFormedGenBody, hdec] at h
          simp at h
      · exact ⟨"Generations were not provided", by simp [postGenHandler, hdec]⟩
  refine ⟨hmain, ?_⟩
  intro g0 g1 hcontra
  rcases hmain with ⟨m, hm⟩
  rw [hm] at hcontra
  exact HandlerOutcome.noConfusion hcontra

/-- Witness for C7 on the concrete one-element body [null]: decoded but
ill-shaped, answered 400. -/
theorem C7_malformed_post_rejected_witness :
    isWellFormedGenBody (Json.arr [Json.null]) = false ∧
    (∃ m, postGenHandler true (Json.arr [Json.null]) true = .clientError 400 m) :=
  ⟨rfl, (C7_malformed_post_rejected (Json.arr [Json.null]) true rfl).1⟩

/-- Theorem C1: the propose round-trip fails for every proposal. The body
SetGenerationAsProposed marshals is the JSON object
{generation, expectedTx}, but the receiving postGenHandler decodes the
body as a JSON array []*Generation, so the decode errors out, the
handler answers a client error instead of 200 OK, and the registered
generation listener is never invoked with the proposal. -/
theorem C1_propose_round_trip_fails (g : Generation) (tx : Option UUID) (reg : Bool) :
    decodeGenPtrSlice (proposeRequestBody g tx) =
      .error "json: cannot unmarshal value into Go value of type []*types.Generation" ∧
    postGenHandler true (proposeRequestBody g tx) reg =
      .clientError 400
        "json: cannot unmarshal value into Go value of type []*types.Generation" := by
  exact ⟨rfl, by simp [postGenHandler, proposeRequestBody, decodeGenPtrSlice]⟩

/-!
GetGenerations, the reading side.

The HTTP GET against the peer is modelled by its result: a transport or
status error, or the 200 body. The body served by the peer comes from
localdb.GetGenerationsByToken, which is outside src.
-/

/-- Modelled from the spec: localdb GetGenerationsByToken is not under
src; the GET contract in the spec serves a JSON array [committed?, proposed?]
with each slot null or a Generation, and a token with no history has
both slots null. -/
def noHistoryResponseBody : Json := .arr [.null, .null]

/-- GenReadResult from the gossiper, with the error slot as an optional
message. -/
structure GenReadResult where
  Committed : Option Generation
  Proposed : Option Generation
  Error : Option String
deriving DecidableEq, Repr

/-- Embeds the slot selection of gossiper.GetGenerations lines 212-220: a
decoded slot is reported only when it is present and its Version is
greater than 0. -/
def processGensResponse (gens : List Generation) : GenReadResult :=
  { Committed :=
      match gens[0]? with
      | some g => if 0 < g.Version then some g else none
      | none => none,
    Proposed :=
      match gens[1]? with
      | some g => if 0 < g.Version then some g else none
      | none => none,
    Error := none }

/-- Embeds gossiper.GetGenerations: propagate a request error, propagate
a body-decode error, otherwise select the slots. -/
def GetGenerations (response : Except String Json) : GenReadResult :=
  match response with
  | .error e => { Committed := none, Proposed := none, Error := some e }
  | .ok body =>
    match decodeGenValueSlice body with
    | .error e => { Committed := none, Proposed := none, Error := some e }
    | .ok gens => processGensResponse gens

/-- A generation with version 1, for concrete evaluations. -/
def sampleGeneration : Generation :=
  { Start := 0, End := 100, Version := 1, Timestamp := 0, Leader := 2,
    Followers := [3], Tx := zeroUUID, TxLeader := 2, Status := 1,
    ToDelete := false }

/-- Theorem C4: a peer with no generation history for the token yields
Committed = null, Proposed = null and no error, and in general a slot is
reported as present only when it decoded with Version greater than 0. -/
theorem C4_get_generations_no_history :
    GetGenerations (.ok noHistoryResponseBody) =
      { Committed := none, Proposed := none, Error := none } ∧
    (∀ gens, (processGensResponse gens).Committed ≠ none →
      ∃ g, gens[0]? = some g ∧ 0 < g.Version) ∧
    (∀ gens, (processGensResponse gens).Proposed ≠ none →
      ∃ g, gens[1]? = some g ∧ 0 < g.Version) := by
  refine ⟨rfl, ?_, ?_⟩
  · intro gens h
    have hc : (processGensResponse gens).Committed =
        (match gens[0]? with
         | some g => if 0 < g.Version then some g else none
         | none => none) := rfl
    cases hg : gens[0]? with
    | none =>
      rw [hc, hg] at h
      exact absurd rfl h
    | some g =>
      by_cases hv : 0 < g.Version
      · exact ⟨g, by simp [hg], hv⟩
      · rw [hc, hg] at h
        simp [hv] at h
  · intro gens h
    have hc : (processGensResponse gens).Proposed =
        (match gens[1]? with
         | some g => if 0 < g.Version then some g else none
         | none => none) := rfl
    cases hg : gens[1]? with
    | none =>
      rw [hc, hg] at h
      exact absurd rfl h
    | some g =>
      by_cases hv : 0 < g.Version
      · exact ⟨g, by simp [hg], hv⟩
      · rw [hc, hg] at h
        simp [hv] at h

/-- Witness for C4: the no-history result evaluates to two null slots,
and the only-when-positive-version conjunct applied to a concrete
version-1 generation in the committed slot. -/
theorem C4_get_generations_no_history_witness :
    GetGenerations (.ok noHistoryResponseBody) =
      { Committed := none, Proposed := none, Error := none } ∧
    (∃ g, [sampleGeneration][0]? = some g ∧ 0 < g.Version) :=
  ⟨C4_get_generations_no_history.1,
   C4_get_generations_no_history.2.1 [sampleGeneration] (by decide)⟩

/-!
The binary framed data-forwarding payload.

binary.Write with a fixed byte order is modelled as appending the
fixed-width two-complement encoding of the value to the output buffer;
the byte order itself (conf.Endianness, declared outside src; per the
spec it is one fixed order agreed cluster-wide) is a parameter and every
statement holds for both orders. Write errors are not modelled: the
claims describe the payload produced on the wire.
-/

/-- The single cluster-wide byte order. -/
inductive Endianness where
  | big
  | little
deriving DecidableEq, Repr

/-- Little-endian base-256 digits of v, exactly w bytes (truncating above
2 to the power of 8w, as the Go fixed-width integer conversions do). -/
def encodeUIntLE : Nat → Nat → List Nat
  | 0, _ => []
  | w + 1, v => v % 256 :: encodeUIntLE w (v / 256)

/-- Fixed-width unsigned encoding in the given byte order. -/
def encodeUInt (e : Endianness) (w v : Nat) : List Nat :=
  match e with
  | .little => encodeUIntLE w v
  | .big => (encodeUIntLE w v).reverse

/-- Two-complement unsigned image of an int64 value. -/
def int64ToWire (t : Int) : Nat := (t % (2 ^ 64 : Int)).toNat

/-- UTF-8 bytes of one character, as Go produces for a string. -/
def charUtf8Bytes (c : Char) : List Nat :=
  let n := c.toNat
  if n < 128 then [n]
  else if n < 2048 then [192 + n / 64, 128 + n % 64]
  else if n < 65536 then [224 + n / 4096, 128 + n / 64 % 64, 128 + n % 64]
  else [240 + n / 262144, 128 + n / 4096 % 64, 128 + n / 64 % 64, 128 + n % 64]

/-- The byte sequence of a Go string (UTF-8); len(s) in Go is its
length. -/
def goStringBytes (s : String) : List Nat :=
  (s.data.map charUtf8Bytes).flatten

/-- A segment chunk; only its raw data block reaches the wire. -/
structure SegmentChunk where
  DataBlock : List Nat
deriving DecidableEq, Repr

/-- consumerResponseItem from the consuming read path: a chunk and the
topic identity it belongs to. -/
structure consumerResponseItem where
  chunk : SegmentChunk
  topic : TopicDataId
deriving DecidableEq, Repr

/-- One binary.Write or Write call: append the bytes to the response
buffer. -/
def binaryWrite (buf : List Nat) (bytes : List Nat) : List Nat := buf ++ bytes

/-- Embeds consumerResponseItem.Marshal: the token (int64, 8 bytes), the
generation id (uint16, 2 bytes), one byte holding uint8(len(name)), the
name bytes, then the raw data block. -/
def consumerResponseItemMarshal (e : Endianness) (i : consumerResponseItem)
    (buf : List Nat) : List Nat :=
  let buf := binaryWrite buf (encodeUInt e 8 (int64ToWire i.topic.Token))
  let buf := binaryWrite buf (encodeUInt e 2 i.topic.GenId)
  let buf := binaryWrite buf [(goStringBytes i.topic.Name).length % 256]
  let buf := binaryWrite buf (goStringBytes i.topic.Name)
  binaryWrite buf i.chunk.DataBlock

/-- Embeds marshalResponse: uint16(len(responseItems)) first, then each
item marshalled in order. -/
def marshalResponse (e : Endianness) (items : List consumerResponseItem) : List Nat :=
  items.foldl (fun buf i => consumerResponseItemMarshal e i buf)
    (binaryWrite [] (encodeUInt e 2 (items.length % 2 ^ 16)))

/-- Per-item frame exactly as the claim words it: fixed-width token,
fixed-width generation id, a 1-byte field holding the topic-name length
itself, the name bytes, the data block. This definition follows the
claim, not the source, and is compared against the source embedding. -/
def specFramedItemExact (e : Endianness) (i : consumerResponseItem) : List Nat :=
  encodeUInt e 8 (int64ToWire i.topic.Token) ++ encodeUInt e 2 i.topic.GenId ++
    [(goStringBytes i.topic.Name).length] ++ goStringBytes i.topic.Name ++
    i.chunk.DataBlock

/-- Whole payload exactly as the claim words it. -/
def specFramedPayloadExact (e : Endianness) (items : List consumerResponseItem) :
    List Nat :=
  encodeUInt e 2 items.length ++ (items.map (specFramedItemExact e)).flatten

/-- Per-item frame as the code produces it: the 1-byte length field holds
the topic-name byte length reduced mod 256. -/
def specFramedItem (e : Endianness) (i : consumerResponseItem) : List Nat :=
  encodeUInt e 8 (int64ToWire i.topic.Token) ++ encodeUInt e 2 i.topic.GenId ++
    [(goStringBytes i.topic.Name).length % 256] ++ goStringBytes i.topic.Name ++
    i.chunk.DataBlock

/-- Whole payload as the code produces it: the 2-byte count holds the
item count reduced mod 2 to the power 16. -/
def specFramedPayload (e : Endianness) (items : List consumerResponseItem) :
    List Nat :=
  encodeUInt e 2 (items.length % 2 ^ 16) ++ (items.map (specFramedItem e)).flatten

theorem consumerResponseItemMarshal_eq (e : Endianness) (i : consumerResponseItem)
    (buf : List Nat) :
    consumerResponseItemMarshal e i buf = buf ++ specFramedItem e i := by
  simp [consumerResponseItemMarshal, specFramedItem, binaryWrite]

theorem marshal_foldl_eq (e : Endianness) :
    ∀ (items : List consumerResponseItem) (acc : List Nat),
      items.foldl (fun buf i => consumerResponseItemMarshal e i buf) acc =
        acc ++ (items.map (specFramedItem e)).flatten := by
  intro items
  induction items with
  | nil => intro acc; simp
  | cons i rest ih =>
    intro acc
    rw [List.foldl_cons, ih, consumerResponseItemMarshal_eq]
    simp [List.append_assoc]

/-- Theorem C6 (amended): for every item list the marshalled payload is
exactly the 2-byte item count (the count reduced mod 2^16), followed per
item by the fixed-width token, the fixed-width generation id, one byte
holding the topic-name byte length reduced mod 2^8, the topic-name
bytes, and the raw data block, all in the single cluster-wide byte
order. -/
theorem C6_marshal_response_layout (e : Endianness)
    (items : List consumerResponseItem) :
    marshalResponse e items = specFramedPayload e items := by
  simp [marshalResponse, specFramedPayload, marshal_foldl_eq, binaryWrite]

/-- A 256-byte topic name. -/
def longName : String := String.mk (List.replicate 256 'a')

/-- An item whose topic name does not fit the 1-byte length field. -/
def overflowItem : consumerResponseItem :=
  { chunk := { DataBlock := [] },
    topic := { Name := longName, Token := 0, GenId := 0 } }

theorem goStringBytes_longName : (goStringBytes longName).length = 256 := by
  have h : ∀ n : Nat, ((List.replicate n 'a').map charUtf8Bytes).flatten.length = n := by
    intro n
    induction n with
    | zero => rfl
    | succ k ih =>
      simp only [List.replicate_succ, List.map_cons, List.flatten]
      have ha : charUtf8Bytes 'a' = [97] := rfl
      simp [ha, ih]
  exact h 256

/-- Counterexample for C6: for a 256-byte topic name the payload byte at
the 1-byte length position (index 12, after the 2 count bytes, 8 token
bytes and 2 generation-id bytes) is 0, while the topic-name length is
256, so the marshalled payload is not the claimed frame (whose length
field would hold 256 there). -/
theorem C6_counterexample :
    (goStringBytes longName).length = 256 ∧
    (marshalResponse .big [overflowItem])[12]? = some 0 ∧
    (specFramedPayloadExact .big [overflowItem])[12]? = some 256 := by
  refine ⟨goStringBytes_longName, ?_, ?_⟩
  · simp [marshalResponse, consumerResponseItemMarshal_eq, binaryWrite,
      specFramedItem, overflowItem, encodeUInt, encodeUIntLE, int64ToWire,
      goStringBytes_longName]
  · simp [specFramedPayloadExact, specFramedItemExact, overflowItem, encodeUInt,
      encodeUIntLE, int64ToWire, goStringBytes_longName]
